import Mathlib

/-!
Verification of the matrix-websockets-proxy gateway (Go sources) against its
natural-language specification.

Shallow embedding conventions:
* Go byte slices that hold HTTP bodies are modelled as a `RawBody`: the raw
  text (at the code-unit level) together with the outcome of JSON-parsing it
  (`Except String Json`, the error carrying the message of encoding/json).
  The JSON parser itself (encoding/json) is external to the repository, so
  the parse outcome is an input of the model, never recomputed.
* The HTTP exchange performed by net/http is external as well; each upstream
  call takes an `HttpOutcome` describing what the network did (no response,
  unreadable body, or a response with status/content-type/body).
* Go panics (failed unchecked type assertions) are modelled by explicit
  `panicked` constructors in the result types.
* Machine integers (HTTP status codes, the typing timeout) are modelled as
  `Int`; none of the embedded code paths can overflow them.
-/

namespace MatrixWS

/-- A JSON value, as decoded by encoding/json. Numbers are restricted to
integers, which covers every value the embedded code paths inspect. -/
inductive Json where
  | null : Json
  | bool (b : Bool) : Json
  | num (n : Int) : Json
  | str (s : String) : Json
  | arr (xs : List Json) : Json
  | obj (fields : List (String × Json)) : Json

/-- Exact-key lookup in a JSON object. encoding/json keeps the last of
duplicate keys, so the last binding wins. -/
def jlookup (fields : List (String × Json)) (key : String) : Option Json :=
  (fields.reverse.find? (fun p => p.1 == key)).map (fun p => p.2)

/-- Field lookup for an untagged Go struct field: encoding/json prefers an
exact match and otherwise falls back to a case-insensitive match. -/
def jlookupCI (fields : List (String × Json)) (key : String) : Option Json :=
  match jlookup fields key with
  | some v => some v
  | none =>
    (fields.reverse.find? (fun p => p.1.toLower == key.toLower)).map (fun p => p.2)

/-- encoding/json semantics for unmarshalling a JSON object member into a Go
`string` field: an absent member or JSON null leaves the zero value ""; a
string is taken verbatim; any other value is an unmarshal error. -/
def decodeStringField (v : Option Json) : Except String String :=
  match v with
  | none => Except.ok ""
  | some Json.null => Except.ok ""
  | some (Json.str s) => Except.ok s
  | some _ => Except.error "json: cannot unmarshal value into Go value of type string"

/-- encoding/json semantics for a Go `bool` field. -/
def decodeBoolField (v : Option Json) : Except String Bool :=
  match v with
  | none => Except.ok false
  | some Json.null => Except.ok false
  | some (Json.bool b) => Except.ok b
  | some _ => Except.error "json: cannot unmarshal value into Go value of type bool"

/-- encoding/json semantics for a Go `int` field. -/
def decodeIntField (v : Option Json) : Except String Int :=
  match v with
  | none => Except.ok 0
  | some Json.null => Except.ok 0
  | some (Json.num n) => Except.ok n
  | some _ => Except.error "json: cannot unmarshal value into Go value of type int"

/-- The bytes of an HTTP body: the raw text plus the result of JSON-parsing
those bytes (done externally by encoding/json). -/
structure RawBody where
  text : String
  json : Except String Json

/-- Go `error` values that flow through the proxy, one constructor per
concrete error type the code distinguishes:
`url.Error` (connectivity failure wrapping an inner cause), the proxy
`HttpError` (non-200 with non-matrix body), `MatrixError` (non-200 with a
decoded errcode/error body), `SyncError` (the non-200 error of the Syncer), and
plain `fmt.Errorf`/`errors.New` strings. -/
inductive GoError where
  | urlError (op : String) (url : String) (inner : GoError) : GoError
  | httpError (statusCode : Int) (contentType : String) (body : String) : GoError
  | matrixError (statusCode : Int) (contentType : String) (body : String)
      (errcode : String) (errmsg : String) : GoError
  | syncError (statusCode : Int) (contentType : String) (body : String) : GoError
  | errorString (msg : String) : GoError
deriving DecidableEq, Repr

/-- The `Error()` method of each modelled Go error type.
`url.Error` stringifies as `op " " url ": " inner`; `HttpError` and
`SyncError` return their raw body; `MatrixError` returns
`errcode " (" errmsg ")"`. -/
def GoError.message : GoError → String
  | GoError.urlError op u inner => op ++ " " ++ u ++ ": " ++ inner.message
  | GoError.httpError _ _ body => body
  | GoError.matrixError _ _ _ errcode errmsg => errcode ++ " (" ++ errmsg ++ ")"
  | GoError.syncError _ _ body => body
  | GoError.errorString msg => msg

/-- Whether the dynamic type of the error is `*MatrixError` (what the Go type
assertion `err.(*MatrixError)` tests). -/
def GoError.isMatrixError : GoError → Bool
  | GoError.matrixError _ _ _ _ _ => true
  | _ => false

/-- Whether the dynamic type of the error is `*HttpError`. -/
def GoError.isHttpError : GoError → Bool
  | GoError.httpError _ _ _ => true
  | _ => false

/-- What the external HTTP layer did for one upstream call: the request
could not be performed at all (`noResponse`, carrying the `url.Error`-style
failure), the response body could not be read, or a response arrived with a
status code, content type and body. -/
inductive HttpOutcome where
  | noResponse (e : GoError) : HttpOutcome
  | readError (msg : String) : HttpOutcome
  | response (statusCode : Int) (contentType : String) (body : RawBody) : HttpOutcome

/-- Unmarshalling a response body into `MatrixErrorDetails` (fields tagged
`errcode`/`error`). Returns `none` when json.Unmarshal would error. -/
def decodeMatrixErrorDetails (doc : Except String Json) : Option (String × String) :=
  match doc with
  | Except.error _ => none
  | Except.ok Json.null => some ("", "")
  | Except.ok (Json.obj fs) =>
    match decodeStringField (jlookup fs "errcode"), decodeStringField (jlookup fs "error") with
    | Except.ok ec, Except.ok em => some (ec, em)
    | _, _ => none
  | Except.ok _ => none

/-- `MatrixClient.do` (proxy/client.go): perform the request; a 200 returns
the body; otherwise build an `HttpError`, upgraded to a `MatrixError` when
the content type is application/json and the body decodes as matrix error
details. A transport failure or body-read failure is returned as-is. -/
def MatrixClient.do (outcome : HttpOutcome) : Except GoError RawBody :=
  match outcome with
  | HttpOutcome.noResponse e => Except.error e
  | HttpOutcome.readError m =>
    Except.error (GoError.errorString ("error reading request error response: " ++ m))
  | HttpOutcome.response st ct body =>
    if st = 200 then Except.ok body
    else
      if ct = "application/json" then
        match decodeMatrixErrorDetails body.json with
        | some (ec, em) => Except.error (GoError.matrixError st ct body.text ec em)
        | none => Except.error (GoError.httpError st ct body.text)
      else Except.error (GoError.httpError st ct body.text)

/-- The `MatrixClient` struct (proxy/client.go). -/
structure MatrixClient where
  AccessToken : String
  UserId : String
  url : String
  Filter : String
  NextSyncBatch : String
deriving DecidableEq, Repr

/-- `NewClient` (proxy/client.go): appends a trailing slash to the base URL
when missing. -/
def NewClient (url : String) (accessToken : String) : MatrixClient :=
  let url := if url.endsWith "/" then url else url ++ "/"
  { AccessToken := accessToken, UserId := "", url := url, Filter := "", NextSyncBatch := "" }

/-- Unmarshalling a /sync body into the struct `syncResponse { NextBatch
string `json:"next_batch"` }` (proxy/client.go). -/
def decodeSyncResponse (doc : Except String Json) : Except String String :=
  match doc with
  | Except.error m => Except.error m
  | Except.ok Json.null => Except.ok ""
  | Except.ok (Json.obj fs) => decodeStringField (jlookup fs "next_batch")
  | Except.ok _ => Except.error "json: cannot unmarshal value into Go value of type syncResponse"

/-- `extractNextBatch` (proxy/client.go): unmarshal the body into the
`syncResponse` struct; an empty (or absent, hence zero-valued) `next_batch`
is the error "/sync response missing next_batch". -/
def extractNextBatch (body : RawBody) : Except GoError String :=
  match decodeSyncResponse body.json with
  | Except.error m => Except.error (GoError.errorString m)
  | Except.ok nb =>
    if nb = "" then Except.error (GoError.errorString "/sync response missing next_batch")
    else Except.ok nb

/-- `MatrixClient.Sync` (proxy/client.go): perform the GET (modelled by the
`HttpOutcome`); on success fish `next_batch` out of the body and store it in
`NextSyncBatch`; on any error return the error with the client unchanged.
Returns the updated client and the body-or-error. -/
def MatrixClient.Sync (s : MatrixClient) (outcome : HttpOutcome) :
    MatrixClient × Except GoError RawBody :=
  match MatrixClient.do outcome with
  | Except.error e => (s, Except.error e)
  | Except.ok body =>
    match extractNextBatch body with
    | Except.error e => (s, Except.error e)
    | Except.ok nb => ({ s with NextSyncBatch := nb }, Except.ok body)

/-- The query parameters `Sync` builds (proxy/client.go): access_token and
timeout always; `since` only when `NextSyncBatch` is non-empty; `filter`
only when `Filter` is non-empty. -/
def MatrixClient.syncQueryParams (s : MatrixClient) (waitForEvents : Bool) :
    List (String × String) :=
  let timeoutMs : Int := if waitForEvents then 60000 else 0
  [("access_token", s.AccessToken), ("timeout", toString timeoutMs)]
    ++ (if s.NextSyncBatch = "" then [] else [("since", s.NextSyncBatch)])
    ++ (if s.Filter = "" then [] else [("filter", s.Filter)])

/-- `url.Values` as used by the `Syncer`: an association list where `Set`
replaces the binding for a key. -/
def paramsSet (params : List (String × String)) (key value : String) :
    List (String × String) :=
  if params.any (fun p => p.1 == key) then
    params.map (fun p => if p.1 == key then (key, value) else p)
  else params ++ [(key, value)]

/-- Read a key back out of modelled `url.Values`. -/
def paramsGet (params : List (String × String)) (key : String) : Option String :=
  (params.find? (fun p => p.1 == key)).map (fun p => p.2)

/-- The `Syncer` struct (proxy/sync.go): upstream URL plus the query
parameters, which also hold the `since` cursor. -/
structure Syncer where
  UpstreamURL : String
  SyncParams : List (String × String)
deriving DecidableEq, Repr

/-- The map-based `extractNextBatch` (proxy/sync.go): unmarshal the body
into `map[string]json.RawMessage`; a missing `next_batch` key is a hard
error, but the raw value is then unmarshalled into a string with the error
IGNORED, so a non-string `next_batch` silently yields "". -/
def syncExtractNextBatch (body : RawBody) : Except GoError String :=
  match body.json with
  | Except.error m => Except.error (GoError.errorString m)
  | Except.ok j =>
    match j with
    | Json.null =>
      Except.error (GoError.errorString "/sync response missing next_batch")
    | Json.obj fs =>
      match jlookup fs "next_batch" with
      | none => Except.error (GoError.errorString "/sync response missing next_batch")
      | some v =>
        Except.ok (match v with | Json.str s => s | _ => "")
    | _ =>
      Except.error
        (GoError.errorString "json: cannot unmarshal value into Go value of type map")

/-- `Syncer.MakeRequest` (proxy/sync.go): perform the GET; a non-200 is a
`SyncError`; on a 200 extract `next_batch` via the map-based extractor and
store it with `SyncParams.Set("since", next_batch)`. -/
def Syncer.MakeRequest (s : Syncer) (outcome : HttpOutcome) :
    Syncer × Except GoError RawBody :=
  match outcome with
  | HttpOutcome.noResponse e => (s, Except.error e)
  | HttpOutcome.readError m =>
    (s, Except.error (GoError.errorString ("error reading sync error response: " ++ m)))
  | HttpOutcome.response st ct body =>
    if st = 200 then
      match syncExtractNextBatch body with
      | Except.error e => (s, Except.error e)
      | Except.ok nb =>
        ({ s with SyncParams := paramsSet s.SyncParams "since" nb }, Except.ok body)
    else (s, Except.error (GoError.syncError st ct body.text))

/-- Unmarshalling a whoami body into `WhoAmIResponse { UserID string
`json:"user_id"` }`. -/
def decodeWhoAmI (doc : Except String Json) : Except String String :=
  match doc with
  | Except.error m => Except.error m
  | Except.ok Json.null => Except.ok ""
  | Except.ok (Json.obj fs) => decodeStringField (jlookup fs "user_id")
  | Except.ok _ => Except.error "json: cannot unmarshal value into Go value of type WhoAmIResponse"

/-- `MatrixErrorDetails` (proxy/client.go): the matrix errcode/error pair. -/
structure MatrixErrorDetails where
  ErrCode : String
  ErrMsg : String
deriving DecidableEq, Repr

/-- `errorToResponse` (request.go): a `*MatrixError` passes its embedded
details through verbatim; any other error becomes code "M_UNKNOWN" with the
stringified error as message. -/
def errorToResponse (err : GoError) : MatrixErrorDetails :=
  match err with
  | GoError.matrixError _ _ _ ec em => { ErrCode := ec, ErrMsg := em }
  | e => { ErrCode := "M_UNKNOWN", ErrMsg := e.message }

/-- `jsonRequest` (request.go): optional correlation id, method name, and
the raw params (none when the member was absent or JSON null). -/
structure jsonRequest where
  ID : Option String
  Method : String
  Params : Option Json

/-- The marshalled forms a handler can place in the `result` member. -/
inductive ResultVal where
  | emptyObj : ResultVal
  | eventIdResult (eventId : String) : ResultVal
deriving DecidableEq, Repr

/-- `jsonResponse` (request.go): the correlation id (null when absent or
when the request was unparseable), and at most one of result / error
(both serialized with omitempty). -/
structure jsonResponse where
  ID : Option String
  Result : Option ResultVal
  Error : Option MatrixErrorDetails

/-- What one handler invocation does: a normal (result, error) pair, or a
runtime panic (from an unchecked type assertion downstream). -/
inductive HandlerOutcome where
  | panicked : HandlerOutcome
  | result (res : Option ResultVal) (err : Option MatrixErrorDetails) : HandlerOutcome

/-- What one `handleRequest` invocation does. -/
inductive DispatchOutcome where
  | panicked : DispatchOutcome
  | response (resp : jsonResponse) : DispatchOutcome

/-- `MatrixClient.GetUserId` (proxy/client.go): return the cached identity
if set; otherwise call /account/whoami (outcome supplied), decode the
`user_id` member and cache it. -/
def MatrixClient.GetUserId (s : MatrixClient) (whoamiOutcome : HttpOutcome) :
    MatrixClient × Except GoError String :=
  if s.UserId = "" then
    match MatrixClient.do whoamiOutcome with
    | Except.error _ =>
      (s, Except.error (GoError.errorString "Error while fetching whoami"))
    | Except.ok body =>
      match decodeWhoAmI body.json with
      | Except.error m =>
        (s, Except.error (GoError.errorString ("Could not Unmarshal response: " ++ m)))
      | Except.ok uid => ({ s with UserId := uid }, Except.ok uid)
  else (s, Except.ok s.UserId)

/-- Unmarshalling the event id out of the 200 body of `sendMessageOrState`, via
the untagged struct `Response { Event_ID string }` (case-insensitive field
match). -/
def decodeEventId (doc : Except String Json) : Except String String :=
  match doc with
  | Except.error m => Except.error m
  | Except.ok Json.null => Except.ok ""
  | Except.ok (Json.obj fs) => decodeStringField (jlookupCI fs "event_id")
  | Except.ok _ => Except.error "json: cannot unmarshal value into Go value of type Response"

/-- `MatrixClient.SendMessage` / `SendState` via `sendMessageOrState`
(proxy/client.go): perform the PUT; on a 200 unmarshal the body and return
its `Event_ID`; propagate any error. -/
def MatrixClient.sendMessageOrState (outcome : HttpOutcome) : Except GoError String :=
  match MatrixClient.do outcome with
  | Except.error e => Except.error e
  | Except.ok body =>
    match decodeEventId body.json with
    | Except.error m => Except.error (GoError.errorString m)
    | Except.ok eid => Except.ok eid

/-- `MatrixClient.SendReadMarkers` (proxy/client.go): a plain POST that
returns the body or the error. -/
def MatrixClient.SendReadMarkers (outcome : HttpOutcome) : Except GoError RawBody :=
  MatrixClient.do outcome

/-- A call to `MatrixClient.SendTyping` either returns a body, returns an
error value, or panics. -/
inductive TypingResult where
  | panicked : TypingResult
  | ok (body : String) : TypingResult
  | err (e : GoError) : TypingResult
deriving DecidableEq, Repr

/-- `MatrixClient.SendTyping` (proxy/client.go): resolve the user id (via
the whoami outcome), then PUT the typing body. On an error from the PUT the
code runs `err.(*MatrixError).HttpError.StatusCode` UNCHECKED: a 429 matrix
error is swallowed into a successful "\x7b\x7d" body, any other matrix error
is returned, and every non-`*MatrixError` error makes the type assertion
panic. The `content` argument is the marshalled typing body handed to the
transport. -/
def MatrixClient.SendTyping (s : MatrixClient) (whoamiOutcome reqOutcome : HttpOutcome)
    (content : Json) : MatrixClient × TypingResult :=
  let _ := content
  match s.GetUserId whoamiOutcome with
  | (s1, Except.error e) => (s1, TypingResult.err e)
  | (s1, Except.ok _) =>
    match MatrixClient.do reqOutcome with
    | Except.ok body => (s1, TypingResult.ok body.text)
    | Except.error e =>
      match e with
      | GoError.matrixError st ct b ec em =>
        if st = 429 then (s1, TypingResult.ok "\x7b\x7d")
        else (s1, TypingResult.err (GoError.matrixError st ct b ec em))
      | _ => (s1, TypingResult.panicked)

/-- The decoded `SendRequest` params struct (request.go): untagged fields
`Room_ID`, `Event_Type`, and the raw-message pointer `Content`. -/
structure SendParams where
  roomId : String
  eventType : String
  content : Option Json

/-- json.Unmarshal of the params into `SendRequest` (case-insensitive field
match; a `*json.RawMessage` stays nil for an absent or null member). -/
def decodeSendParams (j : Json) : Except String SendParams :=
  match j with
  | Json.null => Except.ok { roomId := "", eventType := "", content := none }
  | Json.obj fs => do
    let r ← decodeStringField (jlookupCI fs "room_id")
    let t ← decodeStringField (jlookupCI fs "event_type")
    let c := match jlookupCI fs "content" with
      | none => none
      | some Json.null => none
      | some v => some v
    Except.ok { roomId := r, eventType := t, content := c }
  | _ => Except.error "json: cannot unmarshal value into Go value of type SendRequest"

/-- The decoded `StateRequest` params struct (request.go). -/
structure StateParams where
  roomId : String
  eventType : String
  stateKey : String
  content : Option Json

/-- json.Unmarshal of the params into `StateRequest`. -/
def decodeStateParams (j : Json) : Except String StateParams :=
  match j with
  | Json.null => Except.ok { roomId := "", eventType := "", stateKey := "", content := none }
  | Json.obj fs => do
    let r ← decodeStringField (jlookupCI fs "room_id")
    let t ← decodeStringField (jlookupCI fs "event_type")
    let k ← decodeStringField (jlookupCI fs "state_key")
    let c := match jlookupCI fs "content" with
      | none => none
      | some Json.null => none
      | some v => some v
    Except.ok { roomId := r, eventType := t, stateKey := k, content := c }
  | _ => Except.error "json: cannot unmarshal value into Go value of type StateRequest"

/-- The decoded `TypingRequest` struct (request.go): fields tagged
`room_id`, `typing`, `timeout,omitempty`. It doubles as the upstream body
the handler marshals. -/
structure TypingParams where
  roomId : String
  typing : Bool
  timeout : Int
deriving DecidableEq, Repr

/-- json.Unmarshal of the params into `TypingRequest`. -/
def decodeTypingParams (j : Json) : Except String TypingParams :=
  match j with
  | Json.null => Except.ok { roomId := "", typing := false, timeout := 0 }
  | Json.obj fs => do
    let r ← decodeStringField (jlookup fs "room_id")
    let ty ← decodeBoolField (jlookup fs "typing")
    let tm ← decodeIntField (jlookup fs "timeout")
    Except.ok { roomId := r, typing := ty, timeout := tm }
  | _ => Except.error "json: cannot unmarshal value into Go value of type TypingRequest"

/-- The decoded `ReadMarkerRequest` struct (request.go): fields tagged
`room_id`, `m.fully_read,omitempty`, `m.read,omitempty`. -/
structure ReadMarkersParams where
  roomId : String
  fullyRead : String
  read : String
deriving DecidableEq, Repr

/-- json.Unmarshal of the params into `ReadMarkerRequest`. -/
def decodeReadMarkersParams (j : Json) : Except String ReadMarkersParams :=
  match j with
  | Json.null => Except.ok { roomId := "", fullyRead := "", read := "" }
  | Json.obj fs => do
    let r ← decodeStringField (jlookup fs "room_id")
    let f ← decodeStringField (jlookup fs "m.fully_read")
    let rd ← decodeStringField (jlookup fs "m.read")
    Except.ok { roomId := r, fullyRead := f, read := rd }
  | _ => Except.error "json: cannot unmarshal value into Go value of type ReadMarkerRequest"

/-- The upstream world one dispatch runs against: the per-connection client
state plus the HTTP outcome of each endpoint a handler may call. -/
structure Upstream where
  client : MatrixClient
  whoamiOutcome : HttpOutcome
  sendOutcome : HttpOutcome
  stateOutcome : HttpOutcome
  typingOutcome : HttpOutcome
  readMarkersOutcome : HttpOutcome

/-- `handlePing` (request.go): empty-object result, no upstream call. -/
def handlePing (_req : jsonRequest) (_u : Upstream) : HandlerOutcome :=
  HandlerOutcome.result (some ResultVal.emptyObj) none

/-- `handleSend` (request.go): requires a correlation id, then decodes the
params; empty room_id / event_type and a nil content are "M_BAD_JSON"
errors; otherwise the message is sent upstream and the returned event id is
wrapped as `SendResponse`. -/
def handleSend (req : jsonRequest) (u : Upstream) : HandlerOutcome :=
  match req.ID with
  | none =>
    HandlerOutcome.result none
      (some { ErrCode := "M_BAD_JSON", ErrMsg := "Missing request ID" })
  | some _ =>
    match decodeSendParams (req.Params.getD (Json.obj [])) with
    | Except.error m =>
      HandlerOutcome.result none (some (errorToResponse (GoError.errorString m)))
    | Except.ok p =>
      if p.roomId = "" then
        HandlerOutcome.result none
          (some { ErrCode := "M_BAD_JSON", ErrMsg := "Missing room_id" })
      else if p.eventType = "" then
        HandlerOutcome.result none
          (some { ErrCode := "M_BAD_JSON", ErrMsg := "Missing event_type" })
      else
        match p.content with
        | none =>
          HandlerOutcome.result none
            (some { ErrCode := "M_BAD_JSON", ErrMsg := "Missing content" })
        | some _ =>
          match MatrixClient.sendMessageOrState u.sendOutcome with
          | Except.error e => HandlerOutcome.result none (some (errorToResponse e))
          | Except.ok eid =>
            HandlerOutcome.result (some (ResultVal.eventIdResult eid)) none

/-- `handleState` (request.go): like `handleSend` but without the id check
and with an optional state key. -/
def handleState (req : jsonRequest) (u : Upstream) : HandlerOutcome :=
  match decodeStateParams (req.Params.getD (Json.obj [])) with
  | Except.error m =>
    HandlerOutcome.result none (some (errorToResponse (GoError.errorString m)))
  | Except.ok p =>
    if p.roomId = "" then
      HandlerOutcome.result none
        (some { ErrCode := "M_BAD_JSON", ErrMsg := "Missing room_id" })
    else if p.eventType = "" then
      HandlerOutcome.result none
        (some { ErrCode := "M_BAD_JSON", ErrMsg := "Missing event_type" })
    else
      match p.content with
      | none =>
        HandlerOutcome.result none
          (some { ErrCode := "M_BAD_JSON", ErrMsg := "Missing content" })
      | some _ =>
        match MatrixClient.sendMessageOrState u.stateOutcome with
        | Except.error e => HandlerOutcome.result none (some (errorToResponse e))
        | Except.ok eid =>
          HandlerOutcome.result (some (ResultVal.eventIdResult eid)) none

/-- The body content `handleTyping` builds before marshalling: room and flag
copied over, the timeout kept only when the flag is true and the supplied
timeout is non-zero (zero otherwise, which `omitempty` then drops). -/
def typingContent (p : TypingParams) : TypingParams :=
  { roomId := p.roomId, typing := p.typing,
    timeout := if p.typing = true ∧ p.timeout ≠ 0 then p.timeout else 0 }

/-- json.Marshal of a `TypingRequest` value: `room_id` and `typing` always,
`timeout` dropped by omitempty exactly when it is zero. -/
def marshalTyping (c : TypingParams) : Json :=
  Json.obj ([("room_id", Json.str c.roomId), ("typing", Json.bool c.typing)]
    ++ (if c.timeout = 0 then [] else [("timeout", Json.num c.timeout)]))

/-- `handleTyping` (request.go): decode the params, require a room id,
build and marshal the forwarded body, and call `SendTyping` with it. -/
def handleTyping (req : jsonRequest) (u : Upstream) : HandlerOutcome :=
  match decodeTypingParams (req.Params.getD (Json.obj [])) with
  | Except.error m =>
    HandlerOutcome.result none (some (errorToResponse (GoError.errorString m)))
  | Except.ok p =>
    if p.roomId = "" then
      HandlerOutcome.result none
        (some { ErrCode := "M_BAD_JSON", ErrMsg := "Missing room_id" })
    else
      match (u.client.SendTyping u.whoamiOutcome u.typingOutcome
          (marshalTyping (typingContent p))).2 with
      | TypingResult.panicked => HandlerOutcome.panicked
      | TypingResult.err e => HandlerOutcome.result none (some (errorToResponse e))
      | TypingResult.ok _ => HandlerOutcome.result (some ResultVal.emptyObj) none

/-- `handleReadMarkers` (request.go): requires a room id and at least one of
the two marker fields, then POSTs the markers upstream. -/
def handleReadMarkers (req : jsonRequest) (u : Upstream) : HandlerOutcome :=
  match decodeReadMarkersParams (req.Params.getD (Json.obj [])) with
  | Except.error m =>
    HandlerOutcome.result none (some (errorToResponse (GoError.errorString m)))
  | Except.ok p =>
    if p.roomId = "" then
      HandlerOutcome.result none
        (some { ErrCode := "M_BAD_JSON", ErrMsg := "Missing room_id" })
    else if p.fullyRead = "" ∧ p.read = "" then
      HandlerOutcome.result none
        (some { ErrCode := "M_BAD_JSON",
                ErrMsg := "either m.read or m.fully_read are required" })
    else
      match MatrixClient.SendReadMarkers u.readMarkersOutcome with
      | Except.error e => HandlerOutcome.result none (some (errorToResponse e))
      | Except.ok _ => HandlerOutcome.result (some ResultVal.emptyObj) none

/-- `handleRequestObject` (request.go): normalize absent params to an empty
object, then route through the fixed handler table (`handlerMap`): ping,
read_markers, send, state, typing. Any other method is the "Unknown method"
error with code "M_BAD_JSON". -/
def handleRequestObject (req : jsonRequest) (u : Upstream) : HandlerOutcome :=
  let nreq := { req with Params := some (req.Params.getD (Json.obj [])) }
  if nreq.Method = "ping" then handlePing nreq u
  else if nreq.Method = "read_markers" then handleReadMarkers nreq u
  else if nreq.Method = "send" then handleSend nreq u
  else if nreq.Method = "state" then handleState nreq u
  else if nreq.Method = "typing" then handleTyping nreq u
  else
    HandlerOutcome.result none
      (some { ErrCode := "M_BAD_JSON", ErrMsg := "Unknown method" })

/-- `handleRequest` (request.go): the input is the outcome of
json.Unmarshal of the inbound bytes into `jsonRequest`. A decode failure
yields the "M_NOT_JSON" error with a null id; otherwise the routed
result/error pair of the routed handler is wrapped with the id of the request. -/
def handleRequest (decoded : Except String jsonRequest) (u : Upstream) : DispatchOutcome :=
  match decoded with
  | Except.error m =>
    DispatchOutcome.response
      { ID := none, Result := none,
        Error := some { ErrCode := "M_NOT_JSON", ErrMsg := m } }
  | Except.ok jr =>
    match handleRequestObject jr u with
    | HandlerOutcome.panicked => DispatchOutcome.panicked
    | HandlerOutcome.result r e =>
      DispatchOutcome.response { ID := jr.ID, Result := r, Error := e }

/-- The incoming /stream request, as `serveStream` (main.go) reads it:
HTTP method plus the access_token, since and filter query parameters. -/
structure StreamRequest where
  method : String
  accessToken : String
  since : String
  filter : String

/-- What `serveStream` does with the HTTP caller: reply directly with a
status/content-type/body, or upgrade to a websocket whose first pushed
message is the initial sync body. -/
inductive ServeOutcome where
  | httpResponse (status : Int) (contentType : Option String) (body : String) : ServeOutcome
  | upgraded (initialMessage : String) : ServeOutcome
deriving DecidableEq, Repr

/-- `http.StatusText` for the codes `serveStream` can emit via
`httpError`. -/
def goStatusText (status : Int) : String :=
  if status = 405 then "Method Not Allowed"
  else if status = 500 then "Internal Server Error"
  else ""

/-- The client `serveStream` builds from the incoming request: NewClient on
the configured upstream plus the since cursor and filter from the query. -/
def streamClient (upstreamURL : String) (r : StreamRequest) : MatrixClient :=
  { NewClient upstreamURL r.accessToken with NextSyncBatch := r.since, Filter := r.filter }

/-- `serveStream` (main.go): reject non-GET; perform the initial
`Sync(false)`; on a `*MatrixError` or `*HttpError` reply with that upstream
status code, content type and body unchanged (`handleHttpError`); on any
other error reply 500; only on success upgrade and push the body. -/
def serveStream (upstreamURL : String) (r : StreamRequest) (syncOutcome : HttpOutcome) :
    ServeOutcome :=
  if r.method ≠ "GET" then
    ServeOutcome.httpResponse 405 none (goStatusText 405 ++ "\n")
  else
    match (streamClient upstreamURL r).Sync syncOutcome with
    | (_, Except.error e) =>
      match e with
      | GoError.matrixError st ct b _ _ => ServeOutcome.httpResponse st (some ct) b
      | GoError.httpError st ct b => ServeOutcome.httpResponse st (some ct) b
      | _ => ServeOutcome.httpResponse 500 none (goStatusText 500 ++ "\n")
    | (_, Except.ok msg) => ServeOutcome.upgraded msg.text

/-- The `url.Error` unwrap `syncPump` performs before building the close
reason (one level, only when the outermost error is a `*url.Error`). -/
def unwrapUrlError (e : GoError) : GoError :=
  match e with
  | GoError.urlError _ _ inner => inner
  | e => e

/-- The close reason `Connection.syncPump` (proxy/conn.go) puts in the close
directive after a failed poll: unwrap a `url.Error` to its inner cause,
then truncate the message to its first 100 code units plus "..." when it is
longer than 100. -/
def syncPumpCloseReason (err : GoError) : String :=
  let e := unwrapUrlError err
  let errmsg := e.message
  if errmsg.length > 100 then errmsg.take 100 ++ "..." else errmsg

/-- gorilla/websocket message type constants. -/
def TextMessage : Int := 1

/-- gorilla/websocket close message type. -/
def CloseMessage : Int := 8

/-- gorilla/websocket ping message type. -/
def PingMessage : Int := 9

/-- A queued outbound frame (the `message` struct of proxy/conn.go). -/
structure WsMessage where
  messageType : Int
  body : String
deriving DecidableEq, Repr

/-- One wakeup of the select loop of the writer: the quit channel closing, a
message dequeued from `send`, or a ping-ticker tick. -/
inductive WriterEvent where
  | quit : WriterEvent
  | send (m : WsMessage) : WriterEvent
  | tick : WriterEvent

/-- `Connection.writePump` (proxy/conn.go) over a finite schedule of select
wakeups, returning the ordered list of transport writes it attempts.
`writeOk` says whether a given write succeeds on the transport. The pump
stops on quit, after a failed write, and right after writing a dequeued
close directive. -/
def writePump (writeOk : WsMessage → Bool) : List WriterEvent → List WsMessage
  | [] => []
  | WriterEvent.quit :: _ => []
  | WriterEvent.send m :: rest =>
    if writeOk m = false then [m]
    else if m.messageType = CloseMessage then [m]
    else m :: writePump writeOk rest
  | WriterEvent.tick :: rest =>
    if writeOk { messageType := PingMessage, body := "" } = false then
      [{ messageType := PingMessage, body := "" }]
    else { messageType := PingMessage, body := "" } :: writePump writeOk rest

/-- A connectivity failure, used as a default upstream outcome. -/
def sampleOutcome : HttpOutcome :=
  HttpOutcome.noResponse (GoError.errorString "connection refused")

/-- A freshly constructed client. -/
def sampleClient : MatrixClient := NewClient "http://localhost:8008/" "SECRET_TOKEN"

/-- A default upstream world for concrete dispatch runs. -/
def sampleUpstream : Upstream :=
  { client := sampleClient, whoamiOutcome := sampleOutcome, sendOutcome := sampleOutcome,
    stateOutcome := sampleOutcome, typingOutcome := sampleOutcome,
    readMarkersOutcome := sampleOutcome }

/-- The errcode inside a handler outcome, when there is one. -/
def HandlerOutcome.errCode : HandlerOutcome → Option String
  | HandlerOutcome.result _ (some d) => some d.ErrCode
  | _ => none

/-- Modelled from the spec: "required field of the routed method is
missing" - per method, the request decodes but a field the handler
requires is absent (zero-valued): for `send` the correlation id, room_id,
event_type or content; for `state` room_id, event_type or content; for
`typing` the room_id; for `read_markers` the room_id or both marker
fields. -/
def specRequiredFieldMissing (req : jsonRequest) : Bool :=
  let params := req.Params.getD (Json.obj [])
  if req.Method = "send" then
    match decodeSendParams params with
    | Except.ok p => req.ID.isNone || p.roomId == "" || p.eventType == "" || p.content.isNone
    | Except.error _ => req.ID.isNone
  else if req.Method = "state" then
    match decodeStateParams params with
    | Except.ok p => p.roomId == "" || p.eventType == "" || p.content.isNone
    | Except.error _ => false
  else if req.Method = "typing" then
    match decodeTypingParams params with
    | Except.ok p => p.roomId == ""
    | Except.error _ => false
  else if req.Method = "read_markers" then
    match decodeReadMarkersParams params with
    | Except.ok p => p.roomId == "" || (p.fullyRead == "" && p.read == "")
    | Except.error _ => false
  else false

/-- The JSON body `handleTyping` marshals and hands to `SendTyping` (the
`jsonContent` of request.go), when the request gets that far: none when the
params do not decode or the room id is empty. -/
def handleTypingSentContent (req : jsonRequest) : Option Json :=
  match decodeTypingParams (req.Params.getD (Json.obj [])) with
  | Except.error _ => none
  | Except.ok p =>
    if p.roomId = "" then none
    else some (marshalTyping (typingContent p))


lemma do_non200_error (st : Int) (ct : String) (b : RawBody) (hst : st ≠ 200) :
    ∃ e, MatrixClient.do (HttpOutcome.response st ct b) = Except.error e := by
  simp only [MatrixClient.do]
  rw [if_neg hst]
  split_ifs with hct
  · rcases h : decodeMatrixErrorDetails b.json with - | ⟨ec, em⟩ <;> simp [h]
  · exact ⟨_, rfl⟩

lemma sync_of_do_error (s : MatrixClient) (out : HttpOutcome) (e : GoError)
    (h : MatrixClient.do out = Except.error e) :
    MatrixClient.Sync s out = (s, Except.error e) := by
  simp [MatrixClient.Sync, h]

lemma sync_of_extract_error (s : MatrixClient) (out : HttpOutcome) (body : RawBody)
    (e : GoError) (h1 : MatrixClient.do out = Except.ok body)
    (h2 : extractNextBatch body = Except.error e) :
    MatrixClient.Sync s out = (s, Except.error e) := by
  simp [MatrixClient.Sync, h1, h2]

/-- C1 (amended): a failed `Sync` never mutates the client (in particular
its `NextSyncBatch` cursor) and a failed `MakeRequest` never mutates the
`SyncParams` (in particular the `since` cursor); non-200 responses,
unreadable bodies and unparseable bodies are errors; for `Sync` a
`next_batch` that is absent or empty is the hard error "/sync response
missing next_batch"; for `MakeRequest` only an ABSENT `next_batch` key is
that error — a present-but-empty `next_batch` is accepted as success and
replaces the `since` cursor with the empty string. -/
theorem sync_cursor_mutation_invariant :
    (∀ (s : MatrixClient) (out : HttpOutcome) (e : GoError),
      (s.Sync out).2 = Except.error e → (s.Sync out).1 = s)
  ∧ (∀ (sy : Syncer) (out : HttpOutcome) (e : GoError),
      (sy.MakeRequest out).2 = Except.error e → (sy.MakeRequest out).1 = sy)
  ∧ (∀ (s : MatrixClient) (st : Int) (ct : String) (b : RawBody), st ≠ 200 →
      ∃ e, (s.Sync (HttpOutcome.response st ct b)).2 = Except.error e)
  ∧ (∀ (s : MatrixClient) (m : String),
      ∃ e, (s.Sync (HttpOutcome.readError m)).2 = Except.error e)
  ∧ (∀ (s : MatrixClient) (ct txt m : String),
      ∃ e, (s.Sync (HttpOutcome.response 200 ct
        { text := txt, json := Except.error m })).2 = Except.error e)
  ∧ (∀ (s : MatrixClient) (ct txt : String) (fs : List (String × Json)),
      decodeStringField (jlookup fs "next_batch") = Except.ok "" →
      (s.Sync (HttpOutcome.response 200 ct
          { text := txt, json := Except.ok (Json.obj fs) })).2
        = Except.error (GoError.errorString "/sync response missing next_batch"))
  ∧ (∀ (sy : Syncer) (ct txt : String) (fs : List (String × Json)),
      jlookup fs "next_batch" = none →
      (sy.MakeRequest (HttpOutcome.response 200 ct
          { text := txt, json := Except.ok (Json.obj fs) })).2
        = Except.error (GoError.errorString "/sync response missing next_batch"))
  ∧ (∀ (sy : Syncer) (ct txt : String) (fs : List (String × Json)),
      jlookup fs "next_batch" = some (Json.str "") →
      sy.MakeRequest (HttpOutcome.response 200 ct
          { text := txt, json := Except.ok (Json.obj fs) })
        = ({ sy with SyncParams := paramsSet sy.SyncParams "since" "" },
           Except.ok { text := txt, json := Except.ok (Json.obj fs) })) := by
  refine ⟨?_, ?_, ?_, ?_, ?_, ?_, ?_, ?_⟩
  · intro s out e h
    simp only [MatrixClient.Sync] at h ⊢
    cases hdo : MatrixClient.do out with
    | error e2 => simp [hdo]
    | ok body =>
      cases hnb : extractNextBatch body with
      | error e2 => simp [hdo, hnb]
      | ok nb => simp [hdo, hnb] at h
  · intro sy out e h
    cases out with
    | noResponse e2 => simp [Syncer.MakeRequest]
    | readError m => simp [Syncer.MakeRequest]
    | response st ct b =>
      simp only [Syncer.MakeRequest] at h ⊢
      by_cases hst : st = 200
      · simp only [hst, if_pos rfl] at h ⊢
        cases hx : syncExtractNextBatch b with
        | error e2 => simp [hx]
        | ok nb => simp [hx] at h
      · simp [hst]
  · intro s st ct b hst
    obtain ⟨e, he⟩ := do_non200_error st ct b hst
    exact ⟨e, by rw [sync_of_do_error s _ e he]⟩
  · intro s m
    refine ⟨GoError.errorString ("error reading request error response: " ++ m), ?_⟩
    have hdo : MatrixClient.do (HttpOutcome.readError m)
        = Except.error (GoError.errorString ("error reading request error response: " ++ m)) :=
      rfl
    rw [sync_of_do_error s _ _ hdo]
  · intro s ct txt m
    refine ⟨GoError.errorString m, ?_⟩
    rw [sync_of_extract_error s _ { text := txt, json := Except.error m } _ ?_ ?_]
    · simp [MatrixClient.do]
    · simp [extractNextBatch, decodeSyncResponse]
  · intro s ct txt fs hf
    rw [sync_of_extract_error s _ { text := txt, json := Except.ok (Json.obj fs) } _ ?_ ?_]
    · simp [MatrixClient.do]
    · simp [extractNextBatch, decodeSyncResponse, hf]
  · intro sy ct txt fs hf
    simp [Syncer.MakeRequest, syncExtractNextBatch, hf]
  · intro sy ct txt fs hf
    simp [Syncer.MakeRequest, syncExtractNextBatch, hf]

/-- C1 witness: the invariant applied at concrete inputs - a connectivity
failure leaves the client untouched, a non-200 leaves the Syncer untouched,
and a 200 body with an empty `next_batch` makes `MakeRequest` succeed while
setting `since` to "". -/
theorem sync_cursor_mutation_invariant_witness :
    (MatrixClient.Sync sampleClient
        (HttpOutcome.noResponse (GoError.errorString "connection refused"))).1 = sampleClient
  ∧ ({ UpstreamURL := "http://localhost:8008/_matrix/client/v2_alpha/sync",
        SyncParams := [("since", "s72_1")] } : Syncer).MakeRequest
        (HttpOutcome.response 200 "application/json"
          { text := "\x7b\"next_batch\":\"\"\x7d",
            json := Except.ok (Json.obj [("next_batch", Json.str "")]) })
      = ({ UpstreamURL := "http://localhost:8008/_matrix/client/v2_alpha/sync",
           SyncParams := [("since", "")] },
         Except.ok { text := "\x7b\"next_batch\":\"\"\x7d",
                     json := Except.ok (Json.obj [("next_batch", Json.str "")]) }) := by
  constructor
  · exact sync_cursor_mutation_invariant.1 sampleClient _
      (GoError.errorString "connection refused") rfl
  · exact sync_cursor_mutation_invariant.2.2.2.2.2.2.2 _ "application/json"
      "\x7b\"next_batch\":\"\"\x7d" [("next_batch", Json.str "")] rfl

/-- C1 counterexample: a successful 200 poll whose body carries a PRESENT
but EMPTY `next_batch` is not an error for `Syncer.MakeRequest` - the call
succeeds and the stored `since` cursor IS mutated (to the empty string),
contradicting the claim that an empty `next_batch` is reported as an error
with the cursor unchanged. -/
theorem makeRequest_accepts_empty_next_batch :
    (({ UpstreamURL := "http://localhost:8008/_matrix/client/v2_alpha/sync",
        SyncParams := [("since", "s72_1")] } : Syncer).MakeRequest
        (HttpOutcome.response 200 "application/json"
          { text := "\x7b\"next_batch\":\"\"\x7d",
            json := Except.ok (Json.obj [("next_batch", Json.str "")]) })).2
      = Except.ok { text := "\x7b\"next_batch\":\"\"\x7d",
                    json := Except.ok (Json.obj [("next_batch", Json.str "")]) }
  ∧ (({ UpstreamURL := "http://localhost:8008/_matrix/client/v2_alpha/sync",
        SyncParams := [("since", "s72_1")] } : Syncer).MakeRequest
        (HttpOutcome.response 200 "application/json"
          { text := "\x7b\"next_batch\":\"\"\x7d",
            json := Except.ok (Json.obj [("next_batch", Json.str "")]) })).1.SyncParams
      = [("since", "")] := by
  constructor <;> rfl

/-- C4: when the typing PUT fails with the service-level 429 rate-limit
rejection (a `*MatrixError` with status 429), `SendTyping` swallows the
error and reports success with the empty-object body. -/
theorem sendTyping_swallows_rate_limit (s : MatrixClient) (w t : HttpOutcome)
    (content : Json) (uid ct b ec em : String)
    (hu : (s.GetUserId w).2 = Except.ok uid)
    (ht : MatrixClient.do t = Except.error (GoError.matrixError 429 ct b ec em)) :
    (s.SendTyping w t content).2 = TypingResult.ok "\x7b\x7d" := by
  unfold MatrixClient.SendTyping
  rcases hg : s.GetUserId w with ⟨s1, r⟩
  rw [hg] at hu
  simp only at hu
  subst hu
  simp [ht]

/-- C4 witness: a client with a cached identity whose typing PUT is
rejected 429 with a matrix error body gets the "\x7b\x7d" success. -/
theorem sendTyping_swallows_rate_limit_witness :
    (MatrixClient.SendTyping
        { AccessToken := "SECRET_TOKEN", UserId := "@alice:example.org",
          url := "http://localhost:8008/", Filter := "", NextSyncBatch := "" }
        sampleOutcome
        (HttpOutcome.response 429 "application/json"
          { text := "\x7b\"errcode\":\"M_LIMIT_EXCEEDED\",\"error\":\"Too Many Requests\"\x7d",
            json := Except.ok (Json.obj
              [("errcode", Json.str "M_LIMIT_EXCEEDED"),
               ("error", Json.str "Too Many Requests")]) })
        (Json.obj [("typing", Json.bool true)])).2 = TypingResult.ok "\x7b\x7d" :=
  sendTyping_swallows_rate_limit _ _ _ _ "@alice:example.org"
    "application/json" "\x7b\"errcode\":\"M_LIMIT_EXCEEDED\",\"error\":\"Too Many Requests\"\x7d"
    "M_LIMIT_EXCEEDED" "Too Many Requests" rfl rfl

/-- C10: when the typing PUT fails with anything that is NOT a
`*MatrixError` (a bare connectivity error, or a non-2xx with a
non-structured body), the unchecked type assertion in `SendTyping` fails:
the call panics instead of returning success or the error value. -/
theorem sendTyping_non_matrix_error_panics (s : MatrixClient) (w t : HttpOutcome)
    (content : Json) (uid : String) (e : GoError)
    (hu : (s.GetUserId w).2 = Except.ok uid)
    (ht : MatrixClient.do t = Except.error e)
    (hm : e.isMatrixError = false) :
    (s.SendTyping w t content).2 = TypingResult.panicked := by
  unfold MatrixClient.SendTyping
  rcases hg : s.GetUserId w with ⟨s1, r⟩
  rw [hg] at hu
  simp only at hu
  subst hu
  cases e with
  | matrixError st ct b ec em => simp [GoError.isMatrixError] at hm
  | urlError op u inner => simp [ht]
  | httpError st ct b => simp [ht]
  | syncError st ct b => simp [ht]
  | errorString m => simp [ht]

/-- C10 witness: a connectivity failure (a url.Error) on the typing PUT
makes `SendTyping` panic. -/
theorem sendTyping_non_matrix_error_panics_witness :
    (MatrixClient.SendTyping
        { AccessToken := "SECRET_TOKEN", UserId := "@alice:example.org",
          url := "http://localhost:8008/", Filter := "", NextSyncBatch := "" }
        sampleOutcome
        (HttpOutcome.noResponse (GoError.urlError "Put"
          "http://localhost:8008/_matrix/client/r0/rooms/r/typing/u"
          (GoError.errorString "connection refused")))
        (Json.obj [("typing", Json.bool true)])).2 = TypingResult.panicked :=
  sendTyping_non_matrix_error_panics _ _ _ _ "@alice:example.org"
    (GoError.urlError "Put" "http://localhost:8008/_matrix/client/r0/rooms/r/typing/u"
      (GoError.errorString "connection refused")) rfl rfl rfl

/-- C6: the close reason the sync pump builds from a failed poll - a
url.Error is first replaced by its inner cause; a resulting message longer
than 100 units is cut to its first 100 followed by "..." (so the prefix is
preserved); shorter messages are used unchanged. -/
theorem close_reason_truncation (err : GoError) :
    (∀ (op u : String) (inner : GoError), err = GoError.urlError op u inner →
        syncPumpCloseReason err
          = (if inner.message.length > 100 then inner.message.take 100 ++ "..."
             else inner.message))
  ∧ ((unwrapUrlError err).message.length > 100 →
        syncPumpCloseReason err = (unwrapUrlError err).message.take 100 ++ "...")
  ∧ ((unwrapUrlError err).message.length ≤ 100 →
        syncPumpCloseReason err = (unwrapUrlError err).message) := by
  refine ⟨?_, ?_, ?_⟩
  · intro op u inner h
    subst h
    simp [syncPumpCloseReason, unwrapUrlError]
  · intro h
    simp [syncPumpCloseReason, h]
  · intro h
    simp [syncPumpCloseReason, Nat.not_lt.mpr h]

/-- C6 witness: a url.Error wrapping a 120-unit inner message is unwrapped
and truncated to the first 100 units plus "...". -/
theorem close_reason_truncation_witness :
    syncPumpCloseReason (GoError.urlError "Get"
        "http://localhost:8008/_matrix/client/r0/sync"
        (GoError.errorString (String.mk (List.replicate 120 (Char.ofNat 120)))))
      = (String.mk (List.replicate 120 (Char.ofNat 120))).take 100 ++ "..." := by
  have h := (close_reason_truncation (GoError.urlError "Get"
    "http://localhost:8008/_matrix/client/r0/sync"
    (GoError.errorString (String.mk (List.replicate 120 (Char.ofNat 120)))))).2.1
  rw [h (by decide)]
  rfl

/-- C8 (amended): a decodable request whose method is none of ping,
read_markers, send, state, typing gets the error response with code
"M_BAD_JSON" and message "Unknown method", echoing the id of the request; the
response is a fixed value, so no upstream call is made. The errcode is NOT
a distinct "unknown method" code - it coincides with the code used for
validation failures, and only the message distinguishes the two. -/
theorem unknown_method_response (req : jsonRequest) (u : Upstream)
    (h1 : req.Method ≠ "ping") (h2 : req.Method ≠ "read_markers")
    (h3 : req.Method ≠ "send") (h4 : req.Method ≠ "state")
    (h5 : req.Method ≠ "typing") :
    handleRequest (Except.ok req) u
      = DispatchOutcome.response
          { ID := req.ID, Result := none,
            Error := some { ErrCode := "M_BAD_JSON", ErrMsg := "Unknown method" } } := by
  simp [handleRequest, handleRequestObject, h1, h2, h3, h4, h5]

/-- C8 witness: an unknown method "flibble" with id "42". -/
theorem unknown_method_response_witness :
    handleRequest (Except.ok { ID := some "42", Method := "flibble", Params := none })
        sampleUpstream
      = DispatchOutcome.response
          { ID := some "42", Result := none,
            Error := some { ErrCode := "M_BAD_JSON", ErrMsg := "Unknown method" } } :=
  unknown_method_response { ID := some "42", Method := "flibble", Params := none }
    sampleUpstream (by decide) (by decide) (by decide) (by decide) (by decide)

/-- C8 counterexample: the errcode for an unknown method equals the errcode
for a handler-level validation failure (a `send` with a missing room_id) -
both are "M_BAD_JSON" - so the "unknown method" code is NOT distinguishable
from the "malformed input" code by errcode. -/
theorem unknown_method_code_not_distinct :
    (handleRequestObject { ID := some "42", Method := "flibble", Params := none }
        sampleUpstream).errCode
      = (handleRequestObject
          { ID := some "42", Method := "send", Params := some (Json.obj []) }
          sampleUpstream).errCode
  ∧ (handleRequestObject { ID := some "42", Method := "flibble", Params := none }
        sampleUpstream).errCode = some "M_BAD_JSON"
  ∧ (handleRequestObject
        { ID := some "42", Method := "send", Params := some (Json.obj []) }
        sampleUpstream)
      = HandlerOutcome.result none (some { ErrCode := "M_BAD_JSON", ErrMsg := "Missing room_id" }) :=
  ⟨rfl, rfl, rfl⟩

lemma handleSend_validation (req : jsonRequest)
    (h : (match decodeSendParams (req.Params.getD (Json.obj [])) with
          | Except.ok p =>
            req.ID.isNone || p.roomId == "" || p.eventType == "" || p.content.isNone
          | Except.error _ => req.ID.isNone) = true) :
    ∃ msg, ∀ u : Upstream, handleSend req u
      = HandlerOutcome.result none (some { ErrCode := "M_BAD_JSON", ErrMsg := msg }) := by
  cases hID : req.ID with
  | none => exact ⟨"Missing request ID", fun u => by simp [handleSend, hID]⟩
  | some i =>
    cases hdec : decodeSendParams (req.Params.getD (Json.obj [])) with
    | error m => rw [hdec] at h; simp [hID] at h
    | ok p =>
      rw [hdec] at h
      simp [hID] at h
      by_cases hr : p.roomId = ""
      · exact ⟨"Missing room_id", fun u => by simp [handleSend, hID, hdec, hr]⟩
      · by_cases he : p.eventType = ""
        · exact ⟨"Missing event_type", fun u => by simp [handleSend, hID, hdec, hr, he]⟩
        · have hc : p.content = none := by
            rcases h with (h | h) | h
            · exact absurd h hr
            · exact absurd h he
            · exact h
          exact ⟨"Missing content", fun u => by simp [handleSend, hID, hdec, hr, he, hc]⟩

lemma handleState_validation (req : jsonRequest)
    (h : (match decodeStateParams (req.Params.getD (Json.obj [])) with
          | Except.ok p => p.roomId == "" || p.eventType == "" || p.content.isNone
          | Except.error _ => false) = true) :
    ∃ msg, ∀ u : Upstream, handleState req u
      = HandlerOutcome.result none (some { ErrCode := "M_BAD_JSON", ErrMsg := msg }) := by
  cases hdec : decodeStateParams (req.Params.getD (Json.obj [])) with
  | error m => rw [hdec] at h; simp at h
  | ok p =>
    rw [hdec] at h
    simp at h
    by_cases hr : p.roomId = ""
    · exact ⟨"Missing room_id", fun u => by simp [handleState, hdec, hr]⟩
    · by_cases he : p.eventType = ""
      · exact ⟨"Missing event_type", fun u => by simp [handleState, hdec, hr, he]⟩
      · have hc : p.content = none := by
          rcases h with (h | h) | h
          · exact absurd h hr
          · exact absurd h he
          · exact h
        exact ⟨"Missing content", fun u => by simp [handleState, hdec, hr, he, hc]⟩

lemma handleTyping_validation (req : jsonRequest)
    (h : (match decodeTypingParams (req.Params.getD (Json.obj [])) with
          | Except.ok p => p.roomId == ""
          | Except.error _ => false) = true) :
    ∃ msg, ∀ u : Upstream, handleTyping req u
      = HandlerOutcome.result none (some { ErrCode := "M_BAD_JSON", ErrMsg := msg }) := by
  cases hdec : decodeTypingParams (req.Params.getD (Json.obj [])) with
  | error m => rw [hdec] at h; simp at h
  | ok p =>
    rw [hdec] at h
    simp at h
    exact ⟨"Missing room_id", fun u => by simp [handleTyping, hdec, h]⟩

lemma handleReadMarkers_validation (req : jsonRequest)
    (h : (match decodeReadMarkersParams (req.Params.getD (Json.obj [])) with
          | Except.ok p => p.roomId == "" || (p.fullyRead == "" && p.read == "")
          | Except.error _ => false) = true) :
    ∃ msg, ∀ u : Upstream, handleReadMarkers req u
      = HandlerOutcome.result none (some { ErrCode := "M_BAD_JSON", ErrMsg := msg }) := by
  cases hdec : decodeReadMarkersParams (req.Params.getD (Json.obj [])) with
  | error m => rw [hdec] at h; simp at h
  | ok p =>
    rw [hdec] at h
    simp at h
    by_cases hr : p.roomId = ""
    · exact ⟨"Missing room_id", fun u => by simp [handleReadMarkers, hdec, hr]⟩
    · have hfr : p.fullyRead = "" ∧ p.read = "" := by
        rcases h with h | h
        · exact absurd h hr
        · exact h
      exact ⟨"either m.read or m.fully_read are required", fun u => by
        simp [handleReadMarkers, hdec, hr, hfr.1, hfr.2]⟩

/-- C2 (amended): bytes that do not decode as a request envelope produce an
error response with code "M_NOT_JSON" and a null correlation id; a
decodable request whose routed method has a required field missing produces
an error response with code "M_BAD_JSON" carrying the original correlation
id. (The two malformed-input situations use two DIFFERENT codes.) -/
theorem malformed_input_responses :
    (∀ (m : String) (u : Upstream),
      handleRequest (Except.error m) u
        = DispatchOutcome.response
            { ID := none, Result := none,
              Error := some { ErrCode := "M_NOT_JSON", ErrMsg := m } })
  ∧ (∀ (req : jsonRequest) (u : Upstream), specRequiredFieldMissing req = true →
      ∃ msg, handleRequest (Except.ok req) u
        = DispatchOutcome.response
            { ID := req.ID, Result := none,
              Error := some { ErrCode := "M_BAD_JSON", ErrMsg := msg } }) := by
  constructor
  · intro m u
    rfl
  · intro req u h
    obtain ⟨rid, rmethod, rparams⟩ := req
    simp only [specRequiredFieldMissing] at h
    by_cases h1 : rmethod = "send"
    · rw [if_pos h1] at h
      subst h1
      obtain ⟨msg, hmsg⟩ := handleSend_validation
        { ID := rid, Method := "send", Params := some (rparams.getD (Json.obj [])) }
        (by simpa using h)
      exact ⟨msg, by simp [handleRequest, handleRequestObject, hmsg]⟩
    · rw [if_neg h1] at h
      by_cases h2 : rmethod = "state"
      · rw [if_pos h2] at h
        subst h2
        obtain ⟨msg, hmsg⟩ := handleState_validation
          { ID := rid, Method := "state", Params := some (rparams.getD (Json.obj [])) }
          (by simpa using h)
        exact ⟨msg, by simp [handleRequest, handleRequestObject, hmsg]⟩
      · rw [if_neg h2] at h
        by_cases h3 : rmethod = "typing"
        · rw [if_pos h3] at h
          subst h3
          obtain ⟨msg, hmsg⟩ := handleTyping_validation
            { ID := rid, Method := "typing", Params := some (rparams.getD (Json.obj [])) }
            (by simpa using h)
          exact ⟨msg, by simp [handleRequest, handleRequestObject, hmsg]⟩
        · rw [if_neg h3] at h
          by_cases h4 : rmethod = "read_markers"
          · rw [if_pos h4] at h
            subst h4
            obtain ⟨msg, hmsg⟩ := handleReadMarkers_validation
              { ID := rid, Method := "read_markers",
                Params := some (rparams.getD (Json.obj [])) }
              (by simpa using h)
            exact ⟨msg, by simp [handleRequest, handleRequestObject, hmsg]⟩
          · rw [if_neg h4] at h
            simp at h

/-- C2 witness: an undecodable frame gets M_NOT_JSON with a null id; a
`send` with no params at all (missing room_id) gets M_BAD_JSON with its
id. -/
theorem malformed_input_responses_witness :
    (handleRequest (Except.error "unexpected end of JSON input") sampleUpstream
      = DispatchOutcome.response
          { ID := none, Result := none,
            Error := some { ErrCode := "M_NOT_JSON",
                            ErrMsg := "unexpected end of JSON input" } })
  ∧ ∃ msg, handleRequest
        (Except.ok { ID := some "1234", Method := "send", Params := none }) sampleUpstream
      = DispatchOutcome.response
          { ID := some "1234", Result := none,
            Error := some { ErrCode := "M_BAD_JSON", ErrMsg := msg } } :=
  ⟨malformed_input_responses.1 "unexpected end of JSON input" sampleUpstream,
   malformed_input_responses.2 { ID := some "1234", Method := "send", Params := none }
     sampleUpstream rfl⟩

/-- C2 counterexample: the code for undecodable input ("M_NOT_JSON")
differs from the code for a missing required field ("M_BAD_JSON"), so there
is no single "malformed input" error code covering both cases as the claim
asserts. -/
theorem malformed_codes_differ :
    (handleRequest (Except.error "unexpected end of JSON input") sampleUpstream
      = DispatchOutcome.response
          { ID := none, Result := none,
            Error := some { ErrCode := "M_NOT_JSON",
                            ErrMsg := "unexpected end of JSON input" } })
  ∧ (handleRequest
        (Except.ok { ID := some "1234", Method := "send", Params := some (Json.obj []) })
        sampleUpstream
      = DispatchOutcome.response
          { ID := some "1234", Result := none,
            Error := some { ErrCode := "M_BAD_JSON", ErrMsg := "Missing room_id" } })
  ∧ ("M_NOT_JSON" : String) ≠ "M_BAD_JSON" :=
  ⟨rfl, rfl, by decide⟩

/-- C3: a `send` whose correlation id is absent, or whose decoded params
lack room_id / event_type / content, gets an "M_BAD_JSON" error carrying
the id of the request, with a message independent of the upstream world (no
upstream call); a fully-populated `send` whose upstream PUT succeeds with a
body carrying an event id gets a response with the same id, result exactly
the event-id object, and no error member. -/
theorem send_command_contract :
    (∀ (req : jsonRequest) (p : SendParams), req.Method = "send" →
      decodeSendParams (req.Params.getD (Json.obj [])) = Except.ok p →
      (req.ID = none ∨ p.roomId = "" ∨ p.eventType = "" ∨ p.content = none) →
      ∃ msg, ∀ u : Upstream, handleRequest (Except.ok req) u
        = DispatchOutcome.response
            { ID := req.ID, Result := none,
              Error := some { ErrCode := "M_BAD_JSON", ErrMsg := msg } })
  ∧ (∀ (id : String) (params : Json) (p : SendParams) (u : Upstream)
        (body : RawBody) (eid : String),
      decodeSendParams params = Except.ok p →
      p.roomId ≠ "" → p.eventType ≠ "" → p.content ≠ none →
      MatrixClient.do u.sendOutcome = Except.ok body →
      decodeEventId body.json = Except.ok eid →
      handleRequest (Except.ok { ID := some id, Method := "send", Params := some params }) u
        = DispatchOutcome.response
            { ID := some id, Result := some (ResultVal.eventIdResult eid),
              Error := none }) := by
  constructor
  · intro req p hm hdec hmiss
    obtain ⟨rid, rmethod, rparams⟩ := req
    simp only at hm
    subst hm
    simp only at hdec hmiss
    have hcond : (match decodeSendParams
          ((some (rparams.getD (Json.obj []))).getD (Json.obj [])) with
        | Except.ok p =>
          (rid.isNone || p.roomId == "" || p.eventType == "" || p.content.isNone)
        | Except.error _ => rid.isNone) = true := by
      simp only [Option.getD_some]
      rw [hdec]
      rcases hmiss with h | h | h | h
      · simp [h]
      · simp [h]
      · simp [h]
      · simp [h]
    obtain ⟨msg, hmsg⟩ := handleSend_validation
      { ID := rid, Method := "send", Params := some (rparams.getD (Json.obj [])) } hcond
    exact ⟨msg, fun u => by simp [handleRequest, handleRequestObject, hmsg]⟩
  · intro id params p u body eid hdec hr he hc hdo heid
    obtain ⟨c, hcon⟩ : ∃ c, p.content = some c := by
      cases hcv : p.content with
      | none => exact absurd hcv hc
      | some c => exact ⟨c, rfl⟩
    simp [handleRequest, handleRequestObject, handleSend, hdec, hr, he, hcon,
      MatrixClient.sendMessageOrState, hdo, heid]

/-- C3 witness: the example of the spec - a send with room_id "ROOM_ID",
event_type "EVENT_TYPE", content an empty object and id "1234", with
upstream answering 200 and a body carrying event_id "EVENT_ID", yields
exactly that result. -/
theorem send_command_contract_witness :
    handleRequest
      (Except.ok
        { ID := some "1234", Method := "send",
          Params := some (Json.obj
            [("room_id", Json.str "ROOM_ID"), ("event_type", Json.str "EVENT_TYPE"),
             ("content", Json.obj [])]) })
      { sampleUpstream with
        sendOutcome := HttpOutcome.response 200 "application/json"
          { text := "\x7b\"event_id\": \"EVENT_ID\"\x7d",
            json := Except.ok (Json.obj [("event_id", Json.str "EVENT_ID")]) } }
    = DispatchOutcome.response
        { ID := some "1234", Result := some (ResultVal.eventIdResult "EVENT_ID"),
          Error := none } :=
  send_command_contract.2 "1234"
    (Json.obj
      [("room_id", Json.str "ROOM_ID"), ("event_type", Json.str "EVENT_TYPE"),
       ("content", Json.obj [])])
    { roomId := "ROOM_ID", eventType := "EVENT_TYPE", content := some (Json.obj []) }
    { sampleUpstream with
      sendOutcome := HttpOutcome.response 200 "application/json"
        { text := "\x7b\"event_id\": \"EVENT_ID\"\x7d",
          json := Except.ok (Json.obj [("event_id", Json.str "EVENT_ID")]) } }
    { text := "\x7b\"event_id\": \"EVENT_ID\"\x7d",
      json := Except.ok (Json.obj [("event_id", Json.str "EVENT_ID")]) }
    "EVENT_ID" rfl (by decide) (by decide) (Option.some_ne_none _) rfl rfl

/-- C5: when the initial immediate poll of the connection-establishment
path fails, the HTTP caller gets from the upstream failure the exact status code,
content type and body for a service-level (`MatrixError`) or
transport/opaque (`HttpError`) failure, a generic 500 for any other
failure (a bare connectivity error), and the transport is never
upgraded. -/
theorem initial_poll_failure_passthrough (upstreamURL : String) (r : StreamRequest)
    (out : HttpOutcome) (e : GoError)
    (hget : r.method = "GET")
    (hs : ((streamClient upstreamURL r).Sync out).2 = Except.error e) :
    (∀ (st : Int) (ct b ec em : String), e = GoError.matrixError st ct b ec em →
        serveStream upstreamURL r out = ServeOutcome.httpResponse st (some ct) b)
  ∧ (∀ (st : Int) (ct b : String), e = GoError.httpError st ct b →
        serveStream upstreamURL r out = ServeOutcome.httpResponse st (some ct) b)
  ∧ (e.isMatrixError = false → e.isHttpError = false →
        serveStream upstreamURL r out
          = ServeOutcome.httpResponse 500 none "Internal Server Error\n")
  ∧ (∀ m, serveStream upstreamURL r out ≠ ServeOutcome.upgraded m) := by
  have hne : ¬(r.method ≠ "GET") := by simp [hget]
  rcases hsync : (streamClient upstreamURL r).Sync out with ⟨c1, res⟩
  rw [hsync] at hs
  simp only at hs
  subst hs
  refine ⟨?_, ?_, ?_, ?_⟩
  · intro st ct b ec em hmx
    subst hmx
    simp [serveStream, hsync, hne]
  · intro st ct b hhe
    subst hhe
    simp [serveStream, hsync, hne]
  · intro hm hh
    cases e with
    | matrixError st ct b ec em => simp [GoError.isMatrixError] at hm
    | httpError st ct b => simp [GoError.isHttpError] at hh
    | urlError op u inner => simp [serveStream, hsync, hne, goStatusText]
    | syncError st ct b => simp [serveStream, hsync, hne, goStatusText]
    | errorString m => simp [serveStream, hsync, hne, goStatusText]
  · intro m
    cases e <;> simp [serveStream, hsync, hne]

/-- C5 witness: a GET whose initial poll is rejected 403 with a matrix
error body is answered with exactly status 403, content type
application/json and that body, and a poll that fails with a bare
connectivity error is answered 500; neither run upgrades. -/
theorem initial_poll_failure_passthrough_witness :
    serveStream "http://localhost:8008/"
        { method := "GET", accessToken := "SECRET_TOKEN", since := "", filter := "" }
        (HttpOutcome.response 403 "application/json"
          { text := "\x7b\"errcode\":\"M_UNKNOWN_TOKEN\",\"error\":\"bad token\"\x7d",
            json := Except.ok (Json.obj
              [("errcode", Json.str "M_UNKNOWN_TOKEN"), ("error", Json.str "bad token")]) })
      = ServeOutcome.httpResponse 403 (some "application/json")
          "\x7b\"errcode\":\"M_UNKNOWN_TOKEN\",\"error\":\"bad token\"\x7d" :=
  (initial_poll_failure_passthrough "http://localhost:8008/"
      { method := "GET", accessToken := "SECRET_TOKEN", since := "", filter := "" }
      (HttpOutcome.response 403 "application/json"
        { text := "\x7b\"errcode\":\"M_UNKNOWN_TOKEN\",\"error\":\"bad token\"\x7d",
          json := Except.ok (Json.obj
            [("errcode", Json.str "M_UNKNOWN_TOKEN"), ("error", Json.str "bad token")]) })
      (GoError.matrixError 403 "application/json"
        "\x7b\"errcode\":\"M_UNKNOWN_TOKEN\",\"error\":\"bad token\"\x7d"
        "M_UNKNOWN_TOKEN" "bad token")
      rfl rfl).1 403 "application/json"
    "\x7b\"errcode\":\"M_UNKNOWN_TOKEN\",\"error\":\"bad token\"\x7d"
    "M_UNKNOWN_TOKEN" "bad token" rfl

lemma writePump_close_last (writeOk : WsMessage → Bool) :
    ∀ (evs : List WriterEvent) (i : Nat) (m : WsMessage),
      (writePump writeOk evs).get? i = some m →
      m.messageType = CloseMessage →
      i + 1 = (writePump writeOk evs).length := by
  intro evs
  induction evs with
  | nil => intro i m hm hc; simp [writePump] at hm
  | cons e rest ih =>
    cases e with
    | quit => intro i m hm hc; simp [writePump] at hm
    | send m0 =>
      by_cases hw : writeOk m0 = false
      · intro i m hm hc
        rw [show writePump writeOk (WriterEvent.send m0 :: rest) = [m0] from by
          simp [writePump, hw]] at hm ⊢
        cases i with
        | zero => simp
        | succ n => simp at hm
      · by_cases hcm : m0.messageType = CloseMessage
        · intro i m hm hc
          rw [show writePump writeOk (WriterEvent.send m0 :: rest) = [m0] from by
            simp [writePump, hw, hcm]] at hm ⊢
          cases i with
          | zero => simp
          | succ n => simp at hm
        · intro i m hm hc
          rw [show writePump writeOk (WriterEvent.send m0 :: rest)
              = m0 :: writePump writeOk rest from by simp [writePump, hw, hcm]] at hm ⊢
          cases i with
          | zero =>
            simp at hm
            rw [← hm] at hc
            exact absurd hc hcm
          | succ n =>
            simp only [List.get?_cons_succ] at hm
            have h3 := ih n m hm hc
            simp only [List.length_cons]
            omega
    | tick =>
      by_cases hw : writeOk { messageType := PingMessage, body := "" } = false
      · intro i m hm hc
        rw [show writePump writeOk (WriterEvent.tick :: rest)
            = [{ messageType := PingMessage, body := "" }] from by
          simp [writePump, hw]] at hm ⊢
        cases i with
        | zero => simp
        | succ n => simp at hm
      · intro i m hm hc
        rw [show writePump writeOk (WriterEvent.tick :: rest)
            = { messageType := PingMessage, body := "" } :: writePump writeOk rest from by
          simp [writePump, hw]] at hm ⊢
        cases i with
        | zero =>
          simp at hm
          rw [← hm] at hc
          simp [PingMessage, CloseMessage] at hc
        | succ n =>
          simp only [List.get?_cons_succ] at hm
          have h3 := ih n m hm hc
          simp only [List.length_cons]
          omega

lemma writePump_stops_at_close (writeOk : WsMessage → Bool) (m : WsMessage)
    (hm : m.messageType = CloseMessage) :
    ∀ (l1 l2 l3 : List WriterEvent),
      writePump writeOk (l1 ++ WriterEvent.send m :: l2)
        = writePump writeOk (l1 ++ WriterEvent.send m :: l3) := by
  intro l1
  induction l1 with
  | nil =>
    intro l2 l3
    by_cases hw : writeOk m = false <;> simp [writePump, hw, hm]
  | cons e t ih =>
    intro l2 l3
    cases e with
    | quit => simp [writePump]
    | send m2 =>
      by_cases hw : writeOk m2 = false
      · simp [writePump, hw]
      · by_cases hc : m2.messageType = CloseMessage <;>
          simp [writePump, hw, hc, ih l2 l3]
    | tick =>
      by_cases hw : writeOk { messageType := PingMessage, body := "" } = false <;>
        simp [writePump, hw, ih l2 l3]

/-- C7: in every writer run, a close directive can only be the LAST
transport write the writer issues (any close-typed element of the write
trace sits at the final position), and once the close directive is dequeued
the writer drains nothing further - the queued events after it are
irrelevant to the trace. -/
theorem writer_close_directive_is_final :
    (∀ (writeOk : WsMessage → Bool) (evs : List WriterEvent) (i : Nat) (m : WsMessage),
        (writePump writeOk evs).get? i = some m →
        m.messageType = CloseMessage →
        i + 1 = (writePump writeOk evs).length)
  ∧ (∀ (writeOk : WsMessage → Bool) (m : WsMessage), m.messageType = CloseMessage →
        ∀ (l1 l2 l3 : List WriterEvent),
          writePump writeOk (l1 ++ WriterEvent.send m :: l2)
            = writePump writeOk (l1 ++ WriterEvent.send m :: l3)) :=
  ⟨fun writeOk evs i m hm hc => writePump_close_last writeOk evs i m hm hc,
   fun writeOk m hm l1 l2 l3 => writePump_stops_at_close writeOk m hm l1 l2 l3⟩

/-- C7 witness: in a concrete run (a data frame, then a close directive,
then a late data frame), the close write is at the last position of the
trace, and the trace is unchanged if the late frame is removed. -/
theorem writer_close_directive_is_final_witness :
    (1 : Nat) + 1 = (writePump (fun _ => true)
      [WriterEvent.send { messageType := TextMessage, body := "sync-batch" },
       WriterEvent.send { messageType := CloseMessage, body := "bye" },
       WriterEvent.send { messageType := TextMessage, body := "late" }]).length
  ∧ writePump (fun _ => true)
      ([WriterEvent.send { messageType := TextMessage, body := "sync-batch" }]
        ++ WriterEvent.send { messageType := CloseMessage, body := "bye" }
          :: [WriterEvent.send { messageType := TextMessage, body := "late" }])
    = writePump (fun _ => true)
      ([WriterEvent.send { messageType := TextMessage, body := "sync-batch" }]
        ++ WriterEvent.send { messageType := CloseMessage, body := "bye" } :: []) :=
  ⟨writer_close_directive_is_final.1 (fun _ => true)
      [WriterEvent.send { messageType := TextMessage, body := "sync-batch" },
       WriterEvent.send { messageType := CloseMessage, body := "bye" },
       WriterEvent.send { messageType := TextMessage, body := "late" }]
      1 { messageType := CloseMessage, body := "bye" } (by decide) (by decide),
   writer_close_directive_is_final.2 (fun _ => true)
      { messageType := CloseMessage, body := "bye" } rfl
      [WriterEvent.send { messageType := TextMessage, body := "sync-batch" }]
      [WriterEvent.send { messageType := TextMessage, body := "late" }] []⟩

/-- C9: for a typing command with a non-empty room id, the body handed to
the upstream typing endpoint always carries the `typing` flag and the
`room_id`, and carries a `timeout` member (equal to the requested timeout)
precisely when the requested typing flag is true and its timeout is
non-zero. -/
theorem typing_timeout_forwarding (req : jsonRequest) (p : TypingParams)
    (hdec : decodeTypingParams (req.Params.getD (Json.obj [])) = Except.ok p)
    (hroom : p.roomId ≠ "") :
    ∃ fs, handleTypingSentContent req = some (Json.obj fs)
      ∧ jlookup fs "room_id" = some (Json.str p.roomId)
      ∧ jlookup fs "typing" = some (Json.bool p.typing)
      ∧ ((∃ v, jlookup fs "timeout" = some v) ↔ (p.typing = true ∧ p.timeout ≠ 0))
      ∧ (∀ v, jlookup fs "timeout" = some v → v = Json.num p.timeout) := by
  by_cases hcond : p.typing = true ∧ p.timeout ≠ 0
  · refine ⟨[("room_id", Json.str p.roomId), ("typing", Json.bool p.typing),
      ("timeout", Json.num p.timeout)], ?_, ?_, ?_, ?_, ?_⟩
    · simp only [handleTypingSentContent, hdec]
      rw [if_neg hroom]
      have htc : typingContent p
          = { roomId := p.roomId, typing := p.typing, timeout := p.timeout } := by
        simp only [typingContent, if_pos hcond]
      rw [htc]
      simp [marshalTyping, hcond.2]
    · simp [jlookup]
    · simp [jlookup]
    · exact iff_of_true ⟨Json.num p.timeout, by simp [jlookup]⟩ hcond
    · intro v hv
      simp [jlookup] at hv
      exact hv.symm
  · refine ⟨[("room_id", Json.str p.roomId), ("typing", Json.bool p.typing)],
      ?_, ?_, ?_, ?_, ?_⟩
    · simp only [handleTypingSentContent, hdec]
      rw [if_neg hroom]
      have htc : typingContent p
          = { roomId := p.roomId, typing := p.typing, timeout := 0 } := by
        simp only [typingContent, if_neg hcond]
      rw [htc]
      simp [marshalTyping]
    · simp [jlookup]
    · simp [jlookup]
    · refine iff_of_false ?_ hcond
      rintro ⟨v, hv⟩
      simp [jlookup] at hv
    · intro v hv
      simp [jlookup] at hv

/-- C9 witness: typing true with timeout 30000 forwards the timeout; the
applied instance exhibits the body fields concretely. -/
theorem typing_timeout_forwarding_witness :
    ∃ fs, handleTypingSentContent
        { ID := some "7", Method := "typing",
          Params := some (Json.obj
            [("room_id", Json.str "!room:example.org"), ("typing", Json.bool true),
             ("timeout", Json.num 30000)]) }
      = some (Json.obj fs)
      ∧ jlookup fs "room_id" = some (Json.str "!room:example.org")
      ∧ jlookup fs "typing" = some (Json.bool true)
      ∧ ((∃ v, jlookup fs "timeout" = some v) ↔ (true = true ∧ (30000 : Int) ≠ 0))
      ∧ (∀ v, jlookup fs "timeout" = some v → v = Json.num 30000) :=
  typing_timeout_forwarding
    { ID := some "7", Method := "typing",
      Params := some (Json.obj
        [("room_id", Json.str "!room:example.org"), ("typing", Json.bool true),
         ("timeout", Json.num 30000)]) }
    { roomId := "!room:example.org", typing := true, timeout := 30000 }
    rfl (by decide)

end MatrixWS
